import Mathlib

/-!
Shallow embedding of `src/native/jni/whisper_jni.cpp`, the JNI binding of the
whisper.cpp speech-recognition library.

The external library (`whisper.h`) is modelled as an abstract oracle
`WhisperLib`: after a decode call `whisper_full(ctx, wparams, samples, n)`,
the segment queries `whisper_full_n_segments` and
`whisper_full_get_segment_text` read the decode result stored in the context,
which is a deterministic function of the context handle, the decode
parameters and the samples; the oracle exposes exactly that function.
Pointers are modelled as `Nat`, with `0` the null pointer, matching
`reinterpret_cast<jlong>` of a possibly-null `whisper_context*`.

The binding holds one piece of process-wide mutable state, the C global
`static int g_n_threads = 4`, modelled as `JNIState`; each binding function
takes the state before the call and returns the state after it.
-/

namespace WhisperJNI

/-- Model of one `jfloat` PCM sample; the binding never inspects sample
values, it only passes the buffer through, so the carrier is abstract. -/
abbrev Sample := Int

/-- Model of `enum whisper_sampling_strategy` from `whisper.h`. -/
inductive whisper_sampling_strategy where
  | greedy
  | beam_search
deriving DecidableEq, Repr

/-- Model of `struct whisper_context_params`: the `use_gpu` field the binding
touches, with every remaining field collapsed into `rest`. -/
structure whisper_context_params where
  use_gpu : Bool
  rest : Nat
deriving DecidableEq, Repr

/-- Model of `struct whisper_full_params`: the fields the binding writes
(`n_threads`, `translate`, `language`) plus the sampling strategy, with every
remaining field collapsed into `rest`. -/
structure whisper_full_params where
  strategy : whisper_sampling_strategy
  n_threads : Int
  translate : Bool
  language : String
  rest : Nat
deriving DecidableEq, Repr

/-- Abstract oracle for the external whisper library. `full` returns the
status of `whisper_full`; `n_segments` and `get_segment_text` give the
segment data readable from the context after that same decode call. -/
structure WhisperLib where
  context_default_params : whisper_context_params
  init_from_file_with_params : String → whisper_context_params → Nat
  full_default_params : whisper_sampling_strategy → whisper_full_params
  full : Nat → whisper_full_params → List Sample → Int
  n_segments : Nat → whisper_full_params → List Sample → Nat
  get_segment_text : Nat → whisper_full_params → List Sample → Nat → String

/-- Process-wide mutable state of the binding: `static int g_n_threads`. -/
structure JNIState where
  g_n_threads : Int
deriving DecidableEq, Repr

/-- State at process start: `static int g_n_threads = 4;`. -/
def initialState : JNIState := { g_n_threads := 4 }

/-- The JNI `JNI_ABORT` release mode constant. -/
def JNI_ABORT : Int := 2

/-- JNI `ReleaseFloatArrayElements` semantics for the caller-visible array:
with mode `JNI_ABORT` the native copy is discarded and the caller array is
left as it was; otherwise the native copy is written back. -/
def releaseFloatArrayElements (mode : Int) (caller native : List Sample) :
    List Sample :=
  if mode = JNI_ABORT then caller else native

/-- The context parameters `initContext` builds:
`whisper_context_default_params()` followed by `cparams.use_gpu = false;`. -/
def contextParamsFor (lib : WhisperLib) : whisper_context_params :=
  { lib.context_default_params with use_gpu := false }

/-- Embedding of `Java_com_app_whisper_nativelib_WhisperNative_initContext`:
updates
`g_n_threads` (falling back to 4 for a non-positive argument), builds
default context parameters with `use_gpu = false`, and returns whatever
handle `whisper_init_from_file_with_params` produces. -/
def initContext (lib : WhisperLib) (s : JNIState) (model_path : String)
    (n_threads : Int) : JNIState × Nat :=
  let s1 : JNIState := { g_n_threads := if n_threads > 0 then n_threads else 4 }
  let ctx := lib.init_from_file_with_params model_path (contextParamsFor lib)
  (s1, ctx)

/-- The decode parameters `transcribeAudio` builds:
`whisper_full_default_params(WHISPER_SAMPLING_GREEDY)` followed by the three
field writes `n_threads`, `translate`, `language`. -/
def buildFullParams (lib : WhisperLib) (g : Int) (language : String)
    (translate : Bool) : whisper_full_params :=
  { lib.full_default_params .greedy with
      n_threads := g
      translate := translate
      language := language }

/-- The segment-concatenation loop of `transcribeAudio`: starting from the
empty `std::string`, for each `i` in `0 .. n-1` append the segment text and
then a single space. -/
def segmentLoop (lib : WhisperLib) (ctx : Nat) (wp : whisper_full_params)
    (samples : List Sample) (n : Nat) : String :=
  (List.range n).foldl
    (fun acc i => acc ++ lib.get_segment_text ctx wp samples i ++ " ") ""

/-- The string `transcribeAudio` produces from one decode invocation:
the segment loop when `whisper_full` returned 0, the empty string
otherwise. -/
def decodeOutput (lib : WhisperLib) (ctx : Nat) (wp : whisper_full_params)
    (samples : List Sample) : String :=
  if lib.full ctx wp samples = 0 then
    segmentLoop lib ctx wp samples (lib.n_segments ctx wp samples)
  else ""

/-- Everything observable from one `transcribeAudio` call: the binding state
after the call, the caller-owned audio array after the call, and the
returned Java string. -/
structure TranscribeResult where
  state : JNIState
  callerAudio : List Sample
  output : String
deriving DecidableEq, Repr

/-- Embedding of `Java_com_app_whisper_nativelib_WhisperNative_transcribeAudio`:
reinterprets the handle as a context pointer with no null check, borrows the
audio array, builds greedy-default decode parameters carrying the current
`g_n_threads` and the `translate` and `language` of this call, runs
`whisper_full`, concatenates the segments on status 0, and releases the
array with `JNI_ABORT`. -/
def transcribeAudio (lib : WhisperLib) (s : JNIState) (context_ptr : Nat)
    (audio_data : List Sample) (sample_rate : Int) (language : String)
    (translate : Bool) : TranscribeResult :=
  let native := audio_data
  let wp := buildFullParams lib s.g_n_threads language translate
  let out := decodeOutput lib context_ptr wp native
  { state := s
    callerAudio := releaseFloatArrayElements JNI_ABORT audio_data native
    output := out }

/-- The segment texts of one decode, in segment order. -/
def segTexts (lib : WhisperLib) (ctx : Nat) (wp : whisper_full_params)
    (samples : List Sample) : List String :=
  (List.range (lib.n_segments ctx wp samples)).map
    (lib.get_segment_text ctx wp samples)

/-- Written from the words of the spec, for comparison: the concatenation of
every segment text in order, each followed by a single space. -/
def specConcat (texts : List String) : String :=
  String.join (texts.map (fun t => t ++ " "))

/-- A concrete library instance used to evaluate the binding on concrete
inputs: loading succeeds only for the path `model.bin`, decoding fails on
the null context and succeeds elsewhere, and a successful decode yields one
segment per input sample. -/
def demoLib : WhisperLib where
  context_default_params := { use_gpu := true, rest := 7 }
  init_from_file_with_params := fun p _ => if p = "model.bin" then 42 else 0
  full_default_params := fun st =>
    { strategy := st, n_threads := 0, translate := false
      language := "auto", rest := 3 }
  full := fun c _ _ => if c = 0 then -1 else 0
  n_segments := fun _ _ samples => samples.length
  get_segment_text := fun _ _ _ i => if i = 0 then "hello" else "world"

/-- A concrete library instance whose decode succeeds on every handle,
including the null handle, with one segment of text. -/
def nullProbeLib : WhisperLib where
  context_default_params := { use_gpu := true, rest := 0 }
  init_from_file_with_params := fun _ _ => 0
  full_default_params := fun st =>
    { strategy := st, n_threads := 0, translate := false
      language := "auto", rest := 0 }
  full := fun _ _ _ => 0
  n_segments := fun _ _ _ => 1
  get_segment_text := fun _ _ _ _ => "ok"

/- Helper lemmas about string folds. -/

theorem foldl_append_hoist {α : Type} (g : α → String) (l : List α)
    (acc : String) :
    l.foldl (fun a x => a ++ g x) acc =
      acc ++ l.foldl (fun a x => a ++ g x) "" := by
  induction l generalizing acc with
  | nil => simp [String.append_empty]
  | cons x xs ih =>
      simp only [List.foldl_cons]
      rw [ih (acc ++ g x), ih ("" ++ g x), String.empty_append,
        String.append_assoc]

theorem string_join_cons (x : String) (l : List String) :
    String.join (x :: l) = x ++ String.join l := by
  simp only [String.join, List.foldl_cons]
  rw [foldl_append_hoist (fun t => t) l ("" ++ x), String.empty_append]

theorem foldl_append_eq_join {α : Type} (g : α → String) (l : List α) :
    l.foldl (fun a x => a ++ g x) "" = String.join (l.map g) := by
  induction l with
  | nil => rfl
  | cons x xs ih =>
      simp only [List.foldl_cons, List.map_cons]
      rw [string_join_cons, foldl_append_hoist g xs ("" ++ g x),
        String.empty_append, ih]

theorem segmentLoop_eq_specConcat (lib : WhisperLib) (ctx : Nat)
    (wp : whisper_full_params) (samples : List Sample) :
    segmentLoop lib ctx wp samples (lib.n_segments ctx wp samples) =
      specConcat (segTexts lib ctx wp samples) := by
  unfold segmentLoop specConcat segTexts
  simp only [String.append_assoc, List.map_map]
  exact foldl_append_eq_join
    (fun i => lib.get_segment_text ctx wp samples i ++ " ")
    (List.range (lib.n_segments ctx wp samples))

/-- C1: when the library decode returns status 0, `transcribeAudio` returns
the concatenation of every decoded segment text in segment order, each
followed by a single space (trailing space included, no segment dropped). -/
theorem transcribe_success_concat (lib : WhisperLib) (s : JNIState)
    (ctx : Nat) (audio_data : List Sample) (sample_rate : Int)
    (language : String) (translate : Bool)
    (h : lib.full ctx (buildFullParams lib s.g_n_threads language translate)
        audio_data = 0) :
    (transcribeAudio lib s ctx audio_data sample_rate language
        translate).output =
      specConcat (segTexts lib ctx
        (buildFullParams lib s.g_n_threads language translate) audio_data) := by
  show decodeOutput lib ctx
      (buildFullParams lib s.g_n_threads language translate) audio_data = _
  unfold decodeOutput
  rw [if_pos h]
  exact segmentLoop_eq_specConcat lib ctx _ audio_data

/-- Witness for C1: a concrete two-segment decode yields the space-separated
concatenation with a trailing space. -/
theorem transcribe_success_concat_witness :
    demoLib.full 1 (buildFullParams demoLib initialState.g_n_threads "en"
      false) [0, 0] = 0 ∧
    (transcribeAudio demoLib initialState 1 [0, 0] 16000 "en" false).output =
      specConcat (segTexts demoLib 1 (buildFullParams demoLib
        initialState.g_n_threads "en" false) [0, 0]) ∧
    (transcribeAudio demoLib initialState 1 [0, 0] 16000 "en" false).output =
      "hello world " :=
  ⟨by decide,
   transcribe_success_concat demoLib initialState 1 [0, 0] 16000 "en" false
     (by decide),
   by decide⟩

/-- C2: when the library decode returns a non-zero status, the binding
returns the empty string; the whole observable result carries no error
code, message or exception channel, and the state and caller array are
untouched. -/
theorem transcribe_failure_empty (lib : WhisperLib) (s : JNIState)
    (ctx : Nat) (audio_data : List Sample) (sample_rate : Int)
    (language : String) (translate : Bool)
    (h : lib.full ctx (buildFullParams lib s.g_n_threads language translate)
        audio_data ≠ 0) :
    transcribeAudio lib s ctx audio_data sample_rate language translate =
      { state := s, callerAudio := audio_data, output := "" } := by
  simp only [transcribeAudio, decodeOutput, releaseFloatArrayElements,
    if_neg h, ite_self]

/-- Witness for C2: on the null context `demoLib` reports status -1 and the
binding returns the empty string with state and array unchanged. -/
theorem transcribe_failure_empty_witness :
    demoLib.full 0 (buildFullParams demoLib initialState.g_n_threads "en"
      false) [5] ≠ 0 ∧
    transcribeAudio demoLib initialState 0 [5] 16000 "en" false =
      { state := initialState, callerAudio := [5], output := "" } :=
  ⟨by decide,
   transcribe_failure_empty demoLib initialState 0 [5] 16000 "en" false
     (by decide)⟩

/-- C3: `initContext` sets the process-wide thread count to 4 when the
argument is non-positive, and to exactly the argument when it is
positive. -/
theorem initContext_thread_count (lib : WhisperLib) (s : JNIState)
    (model_path : String) (n_threads : Int) :
    (n_threads ≤ 0 →
      ((initContext lib s model_path n_threads).1).g_n_threads = 4) ∧
    (0 < n_threads →
      ((initContext lib s model_path n_threads).1).g_n_threads = n_threads) := by
  refine ⟨fun h => ?_, fun h => ?_⟩
  · show (if n_threads > 0 then n_threads else 4) = 4
    rw [if_neg (by omega)]
  · show (if n_threads > 0 then n_threads else 4) = n_threads
    rw [if_pos h]

/-- Witness for C3: thread counts 0, -3 and 7 produce 4, 4 and 7. -/
theorem initContext_thread_count_witness :
    ((initContext demoLib initialState "model.bin" 0).1).g_n_threads = 4 ∧
    ((initContext demoLib initialState "model.bin" (-3)).1).g_n_threads = 4 ∧
    ((initContext demoLib initialState "model.bin" 7).1).g_n_threads = 7 :=
  ⟨(initContext_thread_count demoLib initialState "model.bin" 0).1
     (by decide),
   (initContext_thread_count demoLib initialState "model.bin" (-3)).1
     (by decide),
   (initContext_thread_count demoLib initialState "model.bin" 7).2
     (by decide)⟩

/-- C4: `initContext` overwrites the thread-count state independently of the
previous state, `transcribeAudio` injects exactly the current state value
into the decode configuration and never modifies the state, and the value
before any `initContext` call is the initial default 4. -/
theorem thread_state_invariant (lib : WhisperLib) (s s2 : JNIState)
    (model_path : String) (n_threads : Int) (ctx : Nat)
    (audio_data : List Sample) (sample_rate : Int) (language : String)
    (translate : Bool) :
    (initContext lib s model_path n_threads).1 =
      (initContext lib s2 model_path n_threads).1 ∧
    (transcribeAudio lib s ctx audio_data sample_rate language
      translate).state = s ∧
    (transcribeAudio lib s ctx audio_data sample_rate language
        translate).output =
      decodeOutput lib ctx
        (buildFullParams lib s.g_n_threads language translate) audio_data ∧
    (buildFullParams lib s.g_n_threads language translate).n_threads =
      s.g_n_threads ∧
    initialState.g_n_threads = 4 :=
  ⟨rfl, rfl, rfl, rfl, rfl⟩

/-- C5: the handle `initContext` returns is exactly the value the library
model-load function produced, so it is the zero sentinel precisely when the
library returned the null pointer; no extra discrimination is added. -/
theorem initContext_forwards_handle (lib : WhisperLib) (s : JNIState)
    (model_path : String) (n_threads : Int) :
    (initContext lib s model_path n_threads).2 =
      lib.init_from_file_with_params model_path (contextParamsFor lib) ∧
    ((initContext lib s model_path n_threads).2 = 0 ↔
      lib.init_from_file_with_params model_path (contextParamsFor lib) = 0) :=
  ⟨rfl, Iff.rfl⟩

/-- C6: each `transcribeAudio` call builds its decode configuration fresh
from the greedy defaults with that same call's language and translate
arguments, and a preceding call on the same context leaves no trace in a
later call. -/
theorem fresh_params_per_call (lib : WhisperLib) (s : JNIState)
    (c1 c2 : Nat) (a1 a2 : List Sample) (r1 r2 : Int) (l1 l2 : String)
    (t1 t2 : Bool) :
    (buildFullParams lib s.g_n_threads l2 t2).language = l2 ∧
    (buildFullParams lib s.g_n_threads l2 t2).translate = t2 ∧
    (buildFullParams lib s.g_n_threads l2 t2).strategy =
      (lib.full_default_params .greedy).strategy ∧
    (buildFullParams lib s.g_n_threads l2 t2).rest =
      (lib.full_default_params .greedy).rest ∧
    transcribeAudio lib
        (transcribeAudio lib s c1 a1 r1 l1 t1).state c2 a2 r2 l2 t2 =
      transcribeAudio lib s c2 a2 r2 l2 t2 :=
  ⟨rfl, rfl, rfl, rfl, rfl⟩

/-- C7: the context parameters `initContext` hands to the library loader are
the library defaults with the GPU flag forced off, independent of both call
arguments (the parameters are a function of the library alone). -/
theorem cpu_only_load_params (lib : WhisperLib) (s : JNIState)
    (model_path : String) (n_threads : Int) :
    (contextParamsFor lib).use_gpu = false ∧
    (contextParamsFor lib).rest = lib.context_default_params.rest ∧
    (initContext lib s model_path n_threads).2 =
      lib.init_from_file_with_params model_path (contextParamsFor lib) :=
  ⟨rfl, rfl, rfl⟩

/-- C8: the caller-owned audio array is only borrowed: the `JNI_ABORT`
release discards any native copy without writing back, the array after the
call equals the array before it, and the state retains no reference to the
buffer. -/
theorem audio_buffer_borrowed (lib : WhisperLib) (s : JNIState) (ctx : Nat)
    (audio_data native : List Sample) (sample_rate : Int) (language : String)
    (translate : Bool) :
    (transcribeAudio lib s ctx audio_data sample_rate language
      translate).callerAudio = audio_data ∧
    releaseFloatArrayElements JNI_ABORT audio_data native = audio_data ∧
    (transcribeAudio lib s ctx audio_data sample_rate language
      translate).state = s :=
  ⟨rfl, rfl, rfl⟩

/-- C9: the empty string is returned both on a non-zero decode status and on
a successful decode with zero segments, so the two cases are
indistinguishable from the returned value. -/
theorem empty_output_ambiguous (lib : WhisperLib) (s : JNIState) (ctx : Nat)
    (audio_data : List Sample) (sample_rate : Int) (language : String)
    (translate : Bool) :
    (lib.full ctx (buildFullParams lib s.g_n_threads language translate)
        audio_data ≠ 0 →
      (transcribeAudio lib s ctx audio_data sample_rate language
        translate).output = "") ∧
    (lib.full ctx (buildFullParams lib s.g_n_threads language translate)
        audio_data = 0 →
      lib.n_segments ctx (buildFullParams lib s.g_n_threads language
        translate) audio_data = 0 →
      (transcribeAudio lib s ctx audio_data sample_rate language
        translate).output = "") := by
  constructor
  · intro h
    show decodeOutput lib ctx _ audio_data = ""
    unfold decodeOutput
    rw [if_neg h]
  · intro h h2
    show decodeOutput lib ctx _ audio_data = ""
    unfold decodeOutput
    rw [if_pos h, h2]
    rfl

/-- Witness for C9: with `demoLib`, a failed decode (null context) and a
successful decode of an empty buffer (zero segments) both yield the empty
string. -/
theorem empty_output_ambiguous_witness :
    (transcribeAudio demoLib initialState 0 [5] 16000 "en" false).output =
      "" ∧
    (transcribeAudio demoLib initialState 9 [] 16000 "en" false).output =
      "" :=
  ⟨(empty_output_ambiguous demoLib initialState 0 [5] 16000 "en" false).1
     (by decide),
   (empty_output_ambiguous demoLib initialState 9 [] 16000 "en" false).2
     (by decide) (by decide)⟩

/-- C10: `transcribeAudio` performs no validity check on the handle: for
every handle value, the zero sentinel included, the output is exactly the
decode result the library produces at that handle, and a library that
answers on the null handle makes the binding return its text. -/
theorem no_null_handle_check (lib : WhisperLib) (s : JNIState)
    (audio_data : List Sample) (sample_rate : Int) (language : String)
    (translate : Bool) (ctx : Nat) :
    (transcribeAudio lib s ctx audio_data sample_rate language
        translate).output =
      decodeOutput lib ctx
        (buildFullParams lib s.g_n_threads language translate) audio_data ∧
    (transcribeAudio lib s 0 audio_data sample_rate language
        translate).output =
      decodeOutput lib 0
        (buildFullParams lib s.g_n_threads language translate) audio_data ∧
    (transcribeAudio nullProbeLib initialState 0 [] 0 "en" false).output =
      "ok " :=
  ⟨rfl, rfl, rfl⟩

end WhisperJNI
